import Mathlib

/-!
Shallow embedding of the goblin OGM session layer (src/goblin/session.py)
and the pieces of its execution path relevant to the unit-of-work claims.

Modelling conventions:
* Python objects that may or may not carry an attribute are modelled with
  `Attr`: `Attr.absent` is "no such attribute" (so `hasattr` is false) and
  `Attr.val v` is "attribute present with value `v`", where `v : Option _`
  distinguishes a real value from Python's `None`.
* `goblin/query.py` and `goblin/mapper.py` are external collaborators that
  are not part of the sources; they are modelled from the spec (see the
  doc comments on `Traversal`, `map_vertex_to_ogm`, `map_edge_to_ogm`,
  `parse_traversal`).
* The composite "execute a traversal and fetch its data"
  (`self.execute_traversal(traversal)` followed by `stream.fetch_data()`)
  is abstracted as a `Backend` oracle mapping the issued traversal to
  either a propagated failure or a result-data row list.  Each session
  operation additionally returns the ordered list of traversals it issued
  through this choke point.
* Object identity (needed to talk about "the same object, mutated") is
  modelled by the `ref` field of `Elem`: the mapper mutates an element in
  place, so it returns an element with the same `ref`.
-/

namespace Goblin

/-- Server-assigned identities. -/
abbrev Ident := Nat

/-- A Python attribute slot: absent (hasattr false), or present with a value
that may itself be Python `None`. -/
inductive Attr (α : Type) where
  | absent : Attr α
  | val : Option α → Attr α
deriving DecidableEq, Repr

/-- `hasattr(obj, name)`: true exactly when the attribute is present,
whatever its value (in particular, true when the value is `None`). -/
def Attr.hasattr : Attr α → Bool
  | .absent => false
  | .val _ => true

/-- A domain element (vertex or edge).  `ref` models Python object identity,
`etype` is the `__type__` discriminator string, `id` the optional
server-assigned identity attribute, `source`/`target` the edge endpoint
attributes (absent on vertices), `mapping` the opaque `__mapping__`
descriptor and `props` the mapped fields. -/
structure Elem where
  ref : Nat
  etype : String
  id : Attr Ident
  source : Attr Nat
  target : Attr Nat
  mapping : Nat
  props : List (String × Nat)
deriving DecidableEq, Repr

/-- One result row returned by the backend: the server-assigned identity it
carries plus its field data. -/
structure Row where
  id : Ident
  props : List (String × Nat)
deriving DecidableEq, Repr

/-- `result` as fetched from a stream: `result.data` is the row list; an
empty list is "not found", never an error. -/
structure ResultData where
  data : List Row
deriving DecidableEq, Repr

/-- Errors the session layer can raise or propagate.  `unknownElementType`
and `missingEndpoints` are the two `Exception(...)` raises in
`session.py`; `keyError`, `indexError`, `attributeError` and `typeError`
are the Python runtime errors its statements can produce;
`notImplementedError` is raised by the unimplemented transaction hooks;
`transport n` stands for an arbitrary propagated transport/backend
failure. -/
inductive Err where
  | unknownElementType
  | missingEndpoints
  | keyError
  | indexError
  | attributeError
  | typeError
  | notImplementedError
  | transport : Nat → Err
deriving DecidableEq, Repr

/-- Modelled from the spec: `goblin/query.py` is not among the sources.
Per the external-interface table, the Query Builder operations
`get_*_by_id(element)`, `add_*(element)`, `update_*(element)`,
`remove_*(element)` are pure and return a Traversal Description given an
element; we model a traversal description by which builder produced it
and for which element. -/
inductive Traversal where
  | getVertexById : Elem → Traversal
  | addVertex : Elem → Traversal
  | updateVertex : Elem → Traversal
  | getEdgeById : Elem → Traversal
  | addEdge : Elem → Traversal
  | updateEdge : Elem → Traversal
  | removeVertex : Elem → Traversal
  | removeEdge : Elem → Traversal
deriving DecidableEq, Repr

/-- The oracle for the composite `await self.execute_traversal(t)` /
`await stream.fetch_data()` round trip: for each issued traversal, either
a propagated failure or the fetched result data. -/
structure Backend where
  respond : Traversal → Except Err ResultData

/-- The identity cache `self._current`: a dict keyed by the saved element's
`id` attribute value (`Option Ident`, since a Python dict key may be
`None`). -/
abbrev Cache := List (Option Ident × Elem)

/-- Dict lookup: first binding for the key. -/
def cacheLookup : Cache → Option Ident → Option Elem
  | [], _ => none
  | (k, v) :: rest, key => if k = key then some v else cacheLookup rest key

/-- Dict key removal (`del current[key]` once the key is known present). -/
def cacheErase : Cache → Option Ident → Cache
  | [], _ => []
  | (k, v) :: rest, key =>
    if k = key then cacheErase rest key else (k, v) :: cacheErase rest key

/-- Dict insert/overwrite: `current[key] = v`. -/
def cacheInsert (c : Cache) (key : Option Ident) (v : Elem) : Cache :=
  (key, v) :: cacheErase c key

/-- Dict membership test. -/
def cacheContains (c : Cache) (key : Option Ident) : Bool :=
  (cacheLookup c key).isSome

/-- Modelled from the spec: `goblin/mapper.py` is not among the sources.
Per the external-interface table, `map_vertex_to_ogm(row, element,
mapping)` "merges one result row onto `element` per `mapping`; returns
the mutated element", and the overview says the returned row is merged
"back onto the original object's identity and field mapping".  So the
mapper sets the element's identity attribute from the row's
server-assigned id, replaces the mapped fields by the row's data, and
returns the same (mutated) object: the `ref` is unchanged. -/
def map_vertex_to_ogm (row : Row) (element : Elem) (mapping : Nat) : Elem :=
  { element with id := Attr.val (some row.id), props := row.props, mapping := mapping }

/-- Modelled from the spec: `goblin/mapper.py` is not among the sources.
Same contract as `map_vertex_to_ogm`, for edges. -/
def map_edge_to_ogm (row : Row) (element : Elem) (mapping : Nat) : Elem :=
  { element with id := Attr.val (some row.id), props := row.props, mapping := mapping }

instance instDecEqExcept {ε α : Type} [DecidableEq ε] [DecidableEq α] :
    DecidableEq (Except ε α)
  | .error x, .error y =>
    if h : x = y then .isTrue (by rw [h])
    else .isFalse (by intro hc; cases hc; exact h rfl)
  | .error _, .ok _ => .isFalse (by intro hc; cases hc)
  | .ok _, .error _ => .isFalse (by intro hc; cases hc)
  | .ok x, .ok y =>
    if h : x = y then .isTrue (by rw [h])
    else .isFalse (by intro hc; cases hc; exact h rfl)

/-- Outcome of a save-family operation: the returned element or propagated
error, the identity cache afterwards, and the traversals issued (in
order) through `execute_traversal`. -/
structure SaveOut where
  res : Except Err Elem
  current : Cache
  trace : List Traversal
deriving DecidableEq, Repr

/-- `Session._save_element(element, get_func, create_func, update_func,
mapper_func)` (session.py lines 75-93).  If the element carries an `id`
attribute, the fetch-by-id traversal is executed first and its row list
decides between create (`if not result.data`) and update; otherwise the
create traversal is built directly.  The shared tail (lines 91-93:
execute, fetch, `mapper_func(result.data[0], element,
element.__mapping__)`) is inlined in both branches; `result.data[0]` on
an empty list is Python's IndexError. -/
def save_element (backend : Backend) (element : Elem)
    (get_func create_func update_func : Elem → Traversal)
    (mapper_func : Row → Elem → Nat → Elem) :
    Except Err Elem × List Traversal :=
  if element.id.hasattr then
    let traversal := get_func element
    match backend.respond traversal with
    | .error e => (.error e, [traversal])
    | .ok result =>
      let traversal2 :=
        if result.data.isEmpty then create_func element else update_func element
      match backend.respond traversal2 with
      | .error e => (.error e, [traversal, traversal2])
      | .ok result2 =>
        match result2.data with
        | [] => (.error Err.indexError, [traversal, traversal2])
        | row :: _ =>
          (.ok (mapper_func row element element.mapping), [traversal, traversal2])
  else
    let traversal := create_func element
    match backend.respond traversal with
    | .error e => (.error e, [traversal])
    | .ok result =>
      match result.data with
      | [] => (.error Err.indexError, [traversal])
      | row :: _ => (.ok (mapper_func row element element.mapping), [traversal])

/-- The tail shared by `save_vertex` and `save_edge` (lines 61-62 and
72-73): on success, `self.current[result.id] = result` — reading the
`id` attribute of the merged element (AttributeError if it were absent)
and inserting under its value — then `return result`; an error from
`_save_element` propagates with the cache untouched. -/
def storeResult (current : Cache) (p : Except Err Elem × List Traversal) : SaveOut :=
  match p with
  | (.error e, tr) => ⟨.error e, current, tr⟩
  | (.ok result, tr) =>
    match result.id with
    | .absent => ⟨.error Err.attributeError, current, tr⟩
    | .val k => ⟨.ok result, cacheInsert current k result, tr⟩

/-- `Session.save_vertex` (lines 55-62): run the generic persist algorithm
with the vertex query builders and mapper, then insert the merged
element into the identity cache and return it. -/
def save_vertex (backend : Backend) (current : Cache) (element : Elem) : SaveOut :=
  storeResult current
    (save_element backend element
      Traversal.getVertexById Traversal.addVertex Traversal.updateVertex
      map_vertex_to_ogm)

/-- `Session.save_edge` (lines 64-73): `if not (hasattr(element, 'source')
and hasattr(element, 'target')): raise` — note the check is `hasattr`
only, so an endpoint attribute that is present but `None` passes it —
then the generic persist algorithm with the edge builders and mapper,
cache insert, and return. -/
def save_edge (backend : Backend) (current : Cache) (element : Elem) : SaveOut :=
  if !(element.source.hasattr && element.target.hasattr) then
    ⟨.error Err.missingEndpoints, current, []⟩
  else
    storeResult current
      (save_element backend element
        Traversal.getEdgeById Traversal.addEdge Traversal.updateEdge
        map_edge_to_ogm)

/-- `Session.save` (lines 46-53): dispatch on `element.__type__`;
any discriminator other than `'vertex'`/`'edge'` raises
`Exception("Unknown element type")`. -/
def save (backend : Backend) (current : Cache) (element : Elem) : SaveOut :=
  if element.etype = "vertex" then save_vertex backend current element
  else if element.etype = "edge" then save_edge backend current element
  else ⟨.error Err.unknownElementType, current, []⟩

/-- Outcome of `flush`: unit or the propagated failure, the remaining
pending queue, the cache afterwards, and the elements `save` was invoked
on, in order. -/
structure FlushOut where
  res : Except Err Unit
  pending : List Elem
  current : Cache
  saved : List Elem
deriving DecidableEq, Repr

/-- `Session.flush` (lines 41-44): `while self._pending: elem =
self._pending.popleft(); await self.save(elem)`.  Each save is fully
awaited before the next pop; a failing save propagates with the failing
element already popped and the rest of the queue still pending.  `save`
never appends to the queue, so the while-loop drain is exactly this FIFO
recursion. -/
def flush (backend : Backend) : List Elem → Cache → FlushOut
  | [], current => ⟨.ok (), [], current, []⟩
  | elem :: rest, current =>
    match save backend current elem with
    | ⟨.error e, cur2, _⟩ => ⟨.error e, rest, cur2, [elem]⟩
    | ⟨.ok _, cur2, _⟩ =>
      let r := flush backend rest cur2
      ⟨r.res, r.pending, r.current, elem :: r.saved⟩

/-- Outcome of a remove-family operation. -/
structure RemoveOut where
  res : Except Err ResultData
  current : Cache
  trace : List Traversal
deriving DecidableEq, Repr

/-- `Session._remove_element` (lines 105-109): execute the delete
traversal, fetch its result, and only then `del
self.current[element.id]` — reading the `id` attribute (AttributeError
if absent) and deleting the key (KeyError if not in the dict) — then
return the fetched result. -/
def remove_element (backend : Backend) (current : Cache) (element : Elem)
    (traversal : Traversal) : RemoveOut :=
  match backend.respond traversal with
  | .error e => ⟨.error e, current, [traversal]⟩
  | .ok result =>
    match element.id with
    | .absent => ⟨.error Err.attributeError, current, [traversal]⟩
    | .val k =>
      if cacheContains current k then ⟨.ok result, cacheErase current k, [traversal]⟩
      else ⟨.error Err.keyError, current, [traversal]⟩

/-- `Session.remove_vertex` (lines 95-98). -/
def remove_vertex (backend : Backend) (current : Cache) (element : Elem) : RemoveOut :=
  remove_element backend current element (Traversal.removeVertex element)

/-- `Session.remove_edge` (lines 100-103). -/
def remove_edge (backend : Backend) (current : Cache) (element : Elem) : RemoveOut :=
  remove_element backend current element (Traversal.removeEdge element)

/-- Outcome of a get-family operation.  `current` is the identity cache
after the call (the method never assigns to `self.current`, so it is
returned unchanged); `mapperCalls` counts mapper invocations. -/
structure GetOut where
  res : Except Err (Option Elem)
  current : Cache
  trace : List Traversal
  mapperCalls : Nat
deriving DecidableEq, Repr

/-- `Session.get_vertex` (lines 111-118): fetch-by-id, and `if
result.data:` merge the first row via the mapper and return it;
otherwise fall off the end, returning `None`.  The identity cache is not
touched. -/
def get_vertex (backend : Backend) (current : Cache) (element : Elem) : GetOut :=
  let traversal := Traversal.getVertexById element
  match backend.respond traversal with
  | .error e => ⟨.error e, current, [traversal], 0⟩
  | .ok result =>
    match result.data with
    | [] => ⟨.ok none, current, [traversal], 0⟩
    | row :: _ =>
      ⟨.ok (some (map_vertex_to_ogm row element element.mapping)), current,
        [traversal], 1⟩

/-- `Session.get_edge` (lines 120-127): same shape as `get_vertex` with the
edge builder and mapper. -/
def get_edge (backend : Backend) (current : Cache) (element : Elem) : GetOut :=
  let traversal := Traversal.getEdgeById element
  match backend.respond traversal with
  | .error e => ⟨.error e, current, [traversal], 0⟩
  | .ok result =>
    match result.data with
    | [] => ⟨.ok none, current, [traversal], 0⟩
    | row :: _ =>
      ⟨.ok (some (map_edge_to_ogm row element element.mapping)), current,
        [traversal], 1⟩

/-- A compiled script (opaque to the session layer). -/
abbrev Script := String

/-- The variable bindings compiled alongside a script. -/
abbrev Bindings := List (String × Nat)

/-- The engine as seen by `execute_traversal`:
`engine._features['transactions']` and `engine.submit(script,
bindings=..., session=...)`, which yields a result-stream handle. -/
structure Engine where
  features_transactions : Bool
  submit : Script → Bindings → Option Nat → Nat

/-- `Session.execute_traversal` (lines 129-136), with the compile step
`query.parse_traversal` (external, modelled from the spec as an abstract
pure function producing script + bindings) passed in as `parse`.
The guard is `if self.engine._features['transactions'] and not
self._use_session():`.  `__init__` (line 19) assigns `self._use_session =
False` — the boolean, discarding the `use_session` keyword — so when the
backend advertises transactions, evaluating `self._use_session()` calls
a bool and raises TypeError before anything is wrapped or submitted
(`self._wrap_in_tx` is never reached).  When the backend does not
advertise transactions, the conjunction short-circuits and the
unmodified script is submitted with its bindings and `self._session`
(which `__init__` leaves as `None`). -/
def execute_traversal (parse : Traversal → Script × Bindings) (engine : Engine)
    (traversal : Traversal) : Except Err Nat :=
  let sb := parse traversal
  if engine.features_transactions then
    .error Err.typeError
  else
    .ok (engine.submit sb.1 sb.2 none)

/-- `Session.commit` (lines 144-148): `await self.flush()`, then `if
self.engine._features['transactions'] and self._use_session(): await
self.tx()`, then `raise NotImplementedError`.  A failure in `flush`
propagates.  After a successful flush, if the backend advertises
transactions the condition again calls the bool `self._use_session`,
raising TypeError (`self.tx()` is never reached); otherwise the trailing
`raise NotImplementedError` fires.  `commit` never returns normally.
The `Backend` oracle and the transactions flag are independent
parameters here; when `features_transactions` is true the faithful
oracle is the constant TypeError (every `execute_traversal` raises
before submitting, see `execute_traversal` above). -/
def commit (backend : Backend) (features_transactions : Bool)
    (pending : List Elem) (current : Cache) : FlushOut :=
  let r := flush backend pending current
  match r.res with
  | .error e => ⟨.error e, r.pending, r.current, r.saved⟩
  | .ok _ =>
    if features_transactions then
      ⟨.error Err.typeError, r.pending, r.current, r.saved⟩
    else
      ⟨.error Err.notImplementedError, r.pending, r.current, r.saved⟩

/-! ## Cache lemmas -/

/-- Looking up the key just inserted yields the inserted element. -/
theorem cacheLookup_insert (c : Cache) (k : Option Ident) (v : Elem) :
    cacheLookup (cacheInsert c k v) k = some v := by
  simp [cacheInsert, cacheLookup]

/-- Erasing a key removes every binding for it. -/
theorem cacheLookup_erase (c : Cache) (k : Option Ident) :
    cacheLookup (cacheErase c k) k = none := by
  induction c with
  | nil => simp [cacheErase, cacheLookup]
  | cons p rest ih =>
    by_cases h : p.1 = k
    · simpa [cacheErase, h] using ih
    · simp [cacheErase, cacheLookup, h, ih]

/-- A flush that returns normally leaves the pending queue empty. -/
theorem flush_ok_pending (backend : Backend) (p : List Elem) (cur : Cache)
    (h : (flush backend p cur).res = .ok ()) :
    (flush backend p cur).pending = [] := by
  induction p generalizing cur with
  | nil => simp [flush]
  | cons e rest ih =>
    revert h
    simp only [flush]
    rcases hs : save backend cur e with ⟨res, cur2, tr⟩
    cases res with
    | error err => intro h; cases h
    | ok v => intro h; exact ih cur2 h

/-! ## Concrete fixtures for witnesses and counterexamples -/

/-- A create-result row with server-assigned id 7. -/
def rowCreate : Row := ⟨7, [("name", 1)]⟩

/-- A fetch-result row for id 3. -/
def rowFetch : Row := ⟨3, [("name", 2)]⟩

/-- An update-result row for id 3. -/
def rowUpdate : Row := ⟨3, [("name", 3)]⟩

/-- A vertex that has never been persisted: no `id` attribute. -/
def vNoId : Elem := ⟨0, "vertex", Attr.absent, Attr.absent, Attr.absent, 0, []⟩

/-- A vertex carrying server-assigned id 3. -/
def vWithId : Elem := ⟨1, "vertex", Attr.val (some 3), Attr.absent, Attr.absent, 0, [("name", 0)]⟩

/-- An edge whose `source` attribute is missing entirely. -/
def edgeNoSource : Elem := ⟨2, "edge", Attr.absent, Attr.absent, Attr.val (some 4), 0, []⟩

/-- An edge whose `source` attribute exists but is `None` (target present). -/
def edgeNoneSource : Elem := ⟨3, "edge", Attr.absent, Attr.val none, Attr.val (some 4), 0, []⟩

/-- An edge with both endpoints and id 3. -/
def edgeWithId : Elem := ⟨5, "edge", Attr.val (some 3), Attr.val (some 1), Attr.val (some 2), 0, []⟩

/-- An element whose `__type__` is neither vertex nor edge. -/
def badElem : Elem := ⟨4, "widget", Attr.absent, Attr.absent, Attr.absent, 0, []⟩

/-- A backend where creates succeed with `rowCreate` and every fetch-by-id
returns no rows. -/
def bkCreate : Backend :=
  ⟨fun t => match t with
    | .addVertex _ => .ok ⟨[rowCreate]⟩
    | .addEdge _ => .ok ⟨[rowCreate]⟩
    | _ => .ok ⟨[]⟩⟩

/-- A backend where fetch-by-id finds `rowFetch` and updates return
`rowUpdate`. -/
def bkUpdate : Backend :=
  ⟨fun t => match t with
    | .getVertexById _ => .ok ⟨[rowFetch]⟩
    | .updateVertex _ => .ok ⟨[rowUpdate]⟩
    | .getEdgeById _ => .ok ⟨[rowFetch]⟩
    | .updateEdge _ => .ok ⟨[rowUpdate]⟩
    | _ => .error (Err.transport 0)⟩

/-- A backend that answers every traversal with zero rows. -/
def bkEmpty : Backend := ⟨fun _ => .ok ⟨[]⟩⟩

/-- A backend where every traversal fails at the transport. -/
def bkFail : Backend := ⟨fun _ => .error (Err.transport 1)⟩

/-! ## Claims -/

/-- Claim C1: for every vertex element with no `id` attribute, `save`
issues exactly one create traversal and zero fetch-by-id traversals, and
the element's identity afterwards equals the server-assigned id of the
create result's first row as merged by the mapper. -/
theorem save_create_when_no_identity (backend : Backend) (current : Cache)
    (element : Elem) (row : Row) (rest : List Row)
    (hv : element.etype = "vertex") (hid : element.id = Attr.absent)
    (hc : backend.respond (Traversal.addVertex element) = .ok ⟨row :: rest⟩) :
    save backend current element =
      ⟨.ok (map_vertex_to_ogm row element element.mapping),
        cacheInsert current (some row.id) (map_vertex_to_ogm row element element.mapping),
        [Traversal.addVertex element]⟩
    ∧ (map_vertex_to_ogm row element element.mapping).id = Attr.val (some row.id) := by
  constructor
  · simp [save, hv, save_vertex, save_element, storeResult, hid, Attr.hasattr, hc,
      map_vertex_to_ogm]
  · simp [map_vertex_to_ogm]

/-- Witness for C1 at the concrete no-id vertex and create backend. -/
theorem save_create_when_no_identity_witness :
    save bkCreate [] vNoId =
      ⟨.ok (map_vertex_to_ogm rowCreate vNoId vNoId.mapping),
        cacheInsert [] (some rowCreate.id) (map_vertex_to_ogm rowCreate vNoId vNoId.mapping),
        [Traversal.addVertex vNoId]⟩
    ∧ (map_vertex_to_ogm rowCreate vNoId vNoId.mapping).id = Attr.val (some rowCreate.id) :=
  save_create_when_no_identity bkCreate [] vNoId rowCreate [] rfl rfl rfl

/-- Claim C2: for every vertex element carrying an identity, `save` issues
the fetch-by-id traversal first and then exactly one update traversal
when the fetch returned rows (never a create), or exactly one create
traversal when it returned none (upsert-by-id, never an update); in both
cases the final traversal's first result row is merged onto the element
and the merged element is returned. -/
theorem save_existing_identity_upsert
    (backend backend2 : Backend) (current current2 : Cache)
    (element element2 : Elem) (row upd upd2 : Row) (rrest urest urest2 : List Row)
    (hv : element.etype = "vertex") (hid : element.id.hasattr = true)
    (hf : backend.respond (Traversal.getVertexById element) = .ok ⟨row :: rrest⟩)
    (hu : backend.respond (Traversal.updateVertex element) = .ok ⟨upd :: urest⟩)
    (hv2 : element2.etype = "vertex") (hid2 : element2.id.hasattr = true)
    (hf2 : backend2.respond (Traversal.getVertexById element2) = .ok ⟨[]⟩)
    (hc2 : backend2.respond (Traversal.addVertex element2) = .ok ⟨upd2 :: urest2⟩) :
    save backend current element =
      ⟨.ok (map_vertex_to_ogm upd element element.mapping),
        cacheInsert current (some upd.id) (map_vertex_to_ogm upd element element.mapping),
        [Traversal.getVertexById element, Traversal.updateVertex element]⟩
    ∧ save backend2 current2 element2 =
      ⟨.ok (map_vertex_to_ogm upd2 element2 element2.mapping),
        cacheInsert current2 (some upd2.id) (map_vertex_to_ogm upd2 element2 element2.mapping),
        [Traversal.getVertexById element2, Traversal.addVertex element2]⟩ := by
  constructor
  · simp [save, hv, save_vertex, save_element, storeResult, hid, hf, hu, map_vertex_to_ogm]
  · simp [save, hv2, save_vertex, save_element, storeResult, hid2, hf2, hc2, map_vertex_to_ogm]

/-- Witness for C2: id-carrying vertex against a backend whose fetch finds a
row (update path) and against one whose fetch is empty (create path). -/
theorem save_existing_identity_upsert_witness :
    save bkUpdate [] vWithId =
      ⟨.ok (map_vertex_to_ogm rowUpdate vWithId vWithId.mapping),
        cacheInsert [] (some rowUpdate.id) (map_vertex_to_ogm rowUpdate vWithId vWithId.mapping),
        [Traversal.getVertexById vWithId, Traversal.updateVertex vWithId]⟩
    ∧ save bkCreate [] vWithId =
      ⟨.ok (map_vertex_to_ogm rowCreate vWithId vWithId.mapping),
        cacheInsert [] (some rowCreate.id) (map_vertex_to_ogm rowCreate vWithId vWithId.mapping),
        [Traversal.getVertexById vWithId, Traversal.addVertex vWithId]⟩ :=
  save_existing_identity_upsert bkUpdate bkCreate [] [] vWithId vWithId
    rowFetch rowUpdate rowCreate [] [] [] rfl rfl rfl rfl rfl rfl rfl rfl

/-- Claim C3 (code bug): the spec requires `save(edge)` to fail with
MissingEndpoints, issuing zero traversals, whenever `source` or `target`
is absent *including when the attribute exists but is `None`*.  The code
checks only `hasattr(element, 'source') and hasattr(element, 'target')`
(session.py line 65), so an edge whose source attribute exists but is
`None` passes the check: no MissingEndpoints is raised and a create
traversal is issued.  First conjunct: the genuinely-absent-attribute
case behaves as claimed; remaining conjuncts: the `source = None` edge
is saved with one create traversal and without MissingEndpoints. -/
theorem save_edge_endpoint_check_divergence :
    save bkCreate [] edgeNoSource = ⟨.error Err.missingEndpoints, [], []⟩
    ∧ save bkCreate [] edgeNoneSource =
        ⟨.ok (map_edge_to_ogm rowCreate edgeNoneSource edgeNoneSource.mapping),
          cacheInsert [] (some rowCreate.id)
            (map_edge_to_ogm rowCreate edgeNoneSource edgeNoneSource.mapping),
          [Traversal.addEdge edgeNoneSource]⟩
    ∧ (save bkCreate [] edgeNoneSource).res ≠ .error Err.missingEndpoints
    ∧ (save bkCreate [] edgeNoneSource).trace.length = 1 := by
  exact ⟨rfl, rfl, by decide, rfl⟩

/-- Claim C4: `flush` on queue [A, B, C] invokes `save` in FIFO order,
fully awaiting each save (the cache threads from one save into the
next), leaves the queue empty on normal return; and when `save B` fails,
`save C` is never invoked, the failure propagates, B is already popped
and C remains pending.  (In this code `save` never enqueues, so the
while-loop drain is exactly this recursion and nothing can be enqueued
mid-flush.) -/
theorem flush_fifo_abort (backend backend2 : Backend) (cur cur2 : Cache)
    (A B C A2 B2 C2 a b c a2 : Elem) (curA curB curC curA2 curB2 : Cache)
    (tA tB tC tA2 tB2 : List Traversal) (err : Err)
    (h1 : save backend cur A = ⟨.ok a, curA, tA⟩)
    (h2 : save backend curA B = ⟨.ok b, curB, tB⟩)
    (h3 : save backend curB C = ⟨.ok c, curC, tC⟩)
    (g1 : save backend2 cur2 A2 = ⟨.ok a2, curA2, tA2⟩)
    (g2 : save backend2 curA2 B2 = ⟨.error err, curB2, tB2⟩) :
    flush backend [A, B, C] cur = ⟨.ok (), [], curC, [A, B, C]⟩
    ∧ flush backend2 [A2, B2, C2] cur2 = ⟨.error err, [C2], curB2, [A2, B2]⟩ := by
  constructor
  · simp [flush, h1, h2, h3]
  · simp [flush, g1, g2]

/-- The merged vertex produced by saving `vNoId` against `bkCreate`. -/
def mergedV : Elem := map_vertex_to_ogm rowCreate vNoId vNoId.mapping

/-- Witness for C4: three no-id vertices drain in order; a queue whose
second element has an unknown discriminator aborts after popping it. -/
theorem flush_fifo_abort_witness :
    flush bkCreate [vNoId, vNoId, vNoId] [] =
      ⟨.ok (), [],
        cacheInsert (cacheInsert (cacheInsert [] (some rowCreate.id) mergedV)
          (some rowCreate.id) mergedV) (some rowCreate.id) mergedV,
        [vNoId, vNoId, vNoId]⟩
    ∧ flush bkCreate [vNoId, badElem, vNoId] [] =
      ⟨.error Err.unknownElementType, [vNoId],
        cacheInsert [] (some rowCreate.id) mergedV, [vNoId, badElem]⟩ :=
  flush_fifo_abort bkCreate bkCreate [] [] vNoId vNoId vNoId vNoId badElem vNoId
    mergedV mergedV mergedV mergedV
    (cacheInsert [] (some rowCreate.id) mergedV)
    (cacheInsert (cacheInsert [] (some rowCreate.id) mergedV) (some rowCreate.id) mergedV)
    (cacheInsert (cacheInsert (cacheInsert [] (some rowCreate.id) mergedV)
      (some rowCreate.id) mergedV) (some rowCreate.id) mergedV)
    (cacheInsert [] (some rowCreate.id) mergedV)
    (cacheInsert [] (some rowCreate.id) mergedV)
    [Traversal.addVertex vNoId] [Traversal.addVertex vNoId] [Traversal.addVertex vNoId]
    [Traversal.addVertex vNoId] []
    Err.unknownElementType rfl rfl rfl rfl rfl

/-- Claim C6: a get whose fetch result is the empty row sequence returns an
absent value (`None`, not an exception) and invokes the mapper zero
times, for both `get_vertex` and `get_edge`. -/
theorem get_empty_result_absent (backend backend2 : Backend) (cur cur2 : Cache)
    (e e2 : Elem)
    (h : backend.respond (Traversal.getVertexById e) = .ok ⟨[]⟩)
    (h2 : backend2.respond (Traversal.getEdgeById e2) = .ok ⟨[]⟩) :
    get_vertex backend cur e = ⟨.ok none, cur, [Traversal.getVertexById e], 0⟩
    ∧ get_edge backend2 cur2 e2 = ⟨.ok none, cur2, [Traversal.getEdgeById e2], 0⟩ := by
  constructor
  · simp [get_vertex, h]
  · simp [get_edge, h2]

/-- Witness for C6: the spec's concrete scenario — `get_edge` on the edge
with id 3 against a backend returning zero rows — plus the vertex
variant. -/
theorem get_empty_result_absent_witness :
    get_vertex bkEmpty [] vWithId = ⟨.ok none, [], [Traversal.getVertexById vWithId], 0⟩
    ∧ get_edge bkEmpty [] edgeWithId = ⟨.ok none, [], [Traversal.getEdgeById edgeWithId], 0⟩ :=
  get_empty_result_absent bkEmpty bkEmpty [] [] vWithId edgeWithId rfl rfl

/-- Claim C10 (implicit): removing an element whose id is not a key of the
identity cache raises KeyError, and only after the delete traversal has
already been executed and its result fetched — the trace contains the
submitted delete, the backend has already produced its result, and only
then does `del self.current[element.id]` fail. -/
theorem remove_missing_key_error (backend backend2 : Backend) (cur cur2 : Cache)
    (e e2 : Elem) (k k2 : Option Ident) (rd rd2 : ResultData)
    (hid : e.id = Attr.val k) (hni : cacheContains cur k = false)
    (hr : backend.respond (Traversal.removeVertex e) = .ok rd)
    (hid2 : e2.id = Attr.val k2) (hni2 : cacheContains cur2 k2 = false)
    (hr2 : backend2.respond (Traversal.removeEdge e2) = .ok rd2) :
    remove_vertex backend cur e = ⟨.error Err.keyError, cur, [Traversal.removeVertex e]⟩
    ∧ remove_edge backend2 cur2 e2 = ⟨.error Err.keyError, cur2, [Traversal.removeEdge e2]⟩ := by
  constructor
  · simp [remove_vertex, remove_element, hr, hid, hni]
  · simp [remove_edge, remove_element, hr2, hid2, hni2]

/-- Witness for C10: removes against an empty cache with a backend that
answers the delete. -/
theorem remove_missing_key_error_witness :
    remove_vertex bkEmpty [] vWithId =
      ⟨.error Err.keyError, [], [Traversal.removeVertex vWithId]⟩
    ∧ remove_edge bkEmpty [] edgeWithId =
      ⟨.error Err.keyError, [], [Traversal.removeEdge edgeWithId]⟩ :=
  remove_missing_key_error bkEmpty bkEmpty [] [] vWithId edgeWithId
    (some 3) (some 3) ⟨[]⟩ ⟨[]⟩ rfl rfl rfl rfl rfl rfl

/-! ## Helper lemmas for the cache invariant -/

/-- A successful `storeResult` stores the merged element in the cache under
its identity attribute's value. -/
theorem storeResult_ok_cache (cu : Cache) (p : Except Err Elem × List Traversal)
    (m : Elem) (ca : Cache) (tr : List Traversal)
    (h : storeResult cu p = ⟨.ok m, ca, tr⟩) :
    ∃ k, m.id = Attr.val k ∧ cacheLookup ca k = some m := by
  rcases p with ⟨res, tr2⟩
  cases res with
  | error e => simp [storeResult] at h
  | ok result =>
    cases hid : result.id with
    | absent => simp [storeResult, hid] at h
    | val k =>
      simp only [storeResult, hid, SaveOut.mk.injEq, Except.ok.injEq] at h
      obtain ⟨h1, h2, h3⟩ := h
      refine ⟨k, ?_, ?_⟩
      · rw [← h1]; exact hid
      · rw [← h2, ← h1]; exact cacheLookup_insert cu k result

/-- Any successful `save` stores the merged element in the cache under its
identity attribute's value. -/
theorem save_ok_cache (bk : Backend) (cu : Cache) (el m : Elem) (ca : Cache)
    (tr : List Traversal) (h : save bk cu el = ⟨.ok m, ca, tr⟩) :
    ∃ k, m.id = Attr.val k ∧ cacheLookup ca k = some m := by
  unfold save at h
  split at h
  · unfold save_vertex at h
    exact storeResult_ok_cache cu _ m ca tr h
  split at h
  · unfold save_edge at h
    split at h
    · simp at h
    · exact storeResult_ok_cache cu _ m ca tr h
  · simp at h

/-- Any successful `remove_element` deletes the element's identity key from
the cache. -/
theorem remove_element_ok_cache (bk : Backend) (cu : Cache) (el : Elem)
    (t : Traversal) (rd : ResultData) (ca : Cache) (tr : List Traversal)
    (k : Option Ident) (hk : el.id = Attr.val k)
    (h : remove_element bk cu el t = ⟨.ok rd, ca, tr⟩) :
    cacheLookup ca k = none := by
  unfold remove_element at h
  split at h
  · simp at h
  · split at h
    · simp at h
    · rename_i k2 heq
      rw [hk] at heq
      injection heq with heq
      split at h
      · obtain ⟨h1, h2, h3⟩ := RemoveOut.mk.injEq .. ▸ h
        rw [← h2, heq]
        exact cacheLookup_erase cu k2
      · simp at h

/-- `get_vertex` leaves the identity cache untouched. -/
theorem get_vertex_current (bk : Backend) (cu : Cache) (el : Elem) :
    (get_vertex bk cu el).current = cu := by
  simp only [get_vertex]
  split
  · rfl
  · split <;> rfl

/-- `get_edge` leaves the identity cache untouched. -/
theorem get_edge_current (bk : Backend) (cu : Cache) (el : Elem) :
    (get_edge bk cu el).current = cu := by
  simp only [get_edge]
  split
  · rfl
  · split <;> rfl

/-- Claim C5, counterexample to the `get` part: a successful `get_vertex`
for the vertex with identity 3 returns the fetched element, yet the
cache after the call (which the method never writes) has no entry for
identity 3 — the claim that a successful get refreshes the cache entry
is false. -/
theorem get_does_not_refresh_cache_cex :
    get_vertex bkUpdate [] vWithId =
      ⟨.ok (some (map_vertex_to_ogm rowFetch vWithId vWithId.mapping)), [],
        [Traversal.getVertexById vWithId], 1⟩
    ∧ cacheLookup (get_vertex bkUpdate [] vWithId).current (some 3) = none :=
  ⟨rfl, rfl⟩

/-- Claim C5 as amended: after a successful `save`, the cache maps the
merged element's identity to that element; after a successful
`remove_vertex`/`remove_edge`, the element's identity key is absent from
the cache; `get_vertex`/`get_edge` leave the cache unchanged (they do
not refresh it). -/
theorem identity_cache_invariant_amended
    (bk bk1 bk2 bk3 : Backend) (cu cu1 cu2 cu3 : Cache)
    (el el1 el2 el3 : Elem) (m : Elem) (ca ca1 ca2 : Cache)
    (tr tr1 tr2 : List Traversal) (k1 k2 : Option Ident) (rd1 rd2 : ResultData)
    (hs : save bk cu el = ⟨.ok m, ca, tr⟩)
    (hid1 : el1.id = Attr.val k1)
    (hr1 : remove_vertex bk1 cu1 el1 = ⟨.ok rd1, ca1, tr1⟩)
    (hid2 : el2.id = Attr.val k2)
    (hr2 : remove_edge bk2 cu2 el2 = ⟨.ok rd2, ca2, tr2⟩) :
    (∃ k, m.id = Attr.val k ∧ cacheLookup ca k = some m)
    ∧ cacheLookup ca1 k1 = none
    ∧ cacheLookup ca2 k2 = none
    ∧ (get_vertex bk3 cu3 el3).current = cu3
    ∧ (get_edge bk3 cu3 el3).current = cu3 :=
  ⟨save_ok_cache bk cu el m ca tr hs,
   remove_element_ok_cache bk1 cu1 el1 (Traversal.removeVertex el1) rd1 ca1 tr1 k1 hid1 hr1,
   remove_element_ok_cache bk2 cu2 el2 (Traversal.removeEdge el2) rd2 ca2 tr2 k2 hid2 hr2,
   get_vertex_current bk3 cu3 el3,
   get_edge_current bk3 cu3 el3⟩

/-- The cache holding exactly the merged vertex saved by
`save bkCreate [] vNoId`. -/
def cacheAfterCreate : Cache := cacheInsert [] (some rowCreate.id) mergedV

/-- Witness for the amended C5: a concrete save, two concrete removes from
a cache containing identity 3, and the get parts. -/
theorem identity_cache_invariant_amended_witness :
    (∃ k, mergedV.id = Attr.val k ∧ cacheLookup cacheAfterCreate k = some mergedV)
    ∧ cacheLookup [] (some 3) = none
    ∧ cacheLookup [] (some 3) = none
    ∧ (get_vertex bkEmpty [] vWithId).current = []
    ∧ (get_edge bkEmpty [] edgeWithId).current = [] :=
  identity_cache_invariant_amended bkCreate bkEmpty bkEmpty bkEmpty
    [] [(some 3, vWithId)] [(some 3, edgeWithId)] [] vNoId vWithId edgeWithId vWithId
    mergedV cacheAfterCreate [] [] [Traversal.addVertex vNoId]
    [Traversal.removeVertex vWithId] [Traversal.removeEdge edgeWithId]
    (some 3) (some 3) ⟨[]⟩ ⟨[]⟩ rfl rfl rfl rfl rfl

/-- Claim C7, counterexample: per the mapper's contract ("merges one result
row onto `element` …; returns the **mutated** element"), a successful
`get_vertex` returns the argument object itself, mutated — same object
identity (`ref`), different field values — not a new element leaving the
argument unchanged. -/
theorem get_new_element_cex :
    (get_vertex bkUpdate [] vWithId).res =
      .ok (some (map_vertex_to_ogm rowFetch vWithId vWithId.mapping))
    ∧ (map_vertex_to_ogm rowFetch vWithId vWithId.mapping).ref = vWithId.ref
    ∧ map_vertex_to_ogm rowFetch vWithId vWithId.mapping ≠ vWithId :=
  ⟨rfl, rfl, by decide⟩

/-- Claim C7 as amended: on a non-empty fetch result, `get_vertex` /
`get_edge` merge the first row onto the argument element via the mapper,
which mutates and returns that same element; the call returns the
argument object (same `ref`), updated — not a fresh element. -/
theorem get_returns_mutated_argument (backend backend2 : Backend)
    (cur cur2 : Cache) (e e2 : Elem) (r r2 : Row) (rs rs2 : List Row)
    (h : backend.respond (Traversal.getVertexById e) = .ok ⟨r :: rs⟩)
    (h2 : backend2.respond (Traversal.getEdgeById e2) = .ok ⟨r2 :: rs2⟩) :
    get_vertex backend cur e =
      ⟨.ok (some (map_vertex_to_ogm r e e.mapping)), cur, [Traversal.getVertexById e], 1⟩
    ∧ (map_vertex_to_ogm r e e.mapping).ref = e.ref
    ∧ get_edge backend2 cur2 e2 =
      ⟨.ok (some (map_edge_to_ogm r2 e2 e2.mapping)), cur2, [Traversal.getEdgeById e2], 1⟩
    ∧ (map_edge_to_ogm r2 e2 e2.mapping).ref = e2.ref := by
  refine ⟨?_, ?_, ?_, ?_⟩
  · simp [get_vertex, h]
  · simp [map_vertex_to_ogm]
  · simp [get_edge, h2]
  · simp [map_edge_to_ogm]

/-- Witness for the amended C7. -/
theorem get_returns_mutated_argument_witness :
    get_vertex bkUpdate [] vWithId =
      ⟨.ok (some (map_vertex_to_ogm rowFetch vWithId vWithId.mapping)), [],
        [Traversal.getVertexById vWithId], 1⟩
    ∧ (map_vertex_to_ogm rowFetch vWithId vWithId.mapping).ref = vWithId.ref
    ∧ get_edge bkUpdate [] edgeWithId =
      ⟨.ok (some (map_edge_to_ogm rowFetch edgeWithId edgeWithId.mapping)), [],
        [Traversal.getEdgeById edgeWithId], 1⟩
    ∧ (map_edge_to_ogm rowFetch edgeWithId edgeWithId.mapping).ref = edgeWithId.ref :=
  get_returns_mutated_argument bkUpdate bkUpdate [] [] vWithId edgeWithId
    rowFetch rowFetch [] [] rfl rfl

/-- A concrete compile step for the execute-traversal model. -/
def parse0 : Traversal → Script × Bindings := fun _ => ("g.V()", [("x", 1)])

/-- An engine advertising transaction support. -/
def engTx : Engine := ⟨true, fun _ _ _ => 0⟩

/-- An engine without transaction support. -/
def engNoTx : Engine := ⟨false, fun _ _ _ => 42⟩

/-- Claim C8 (code bug): when the backend advertises transactions,
`execute_traversal` never wraps and submits the script — it raises
TypeError, because `self._use_session` holds the boolean `False`
(`__init__` discards the `use_session` keyword) and the guard calls it
as a function; nothing reaches the engine.  When the backend does not
advertise transactions, the unmodified script and its bindings are
submitted and the stream returned, as claimed. -/
theorem execute_traversal_transactions_bug :
    execute_traversal parse0 engTx (Traversal.addVertex vNoId) = .error Err.typeError
    ∧ execute_traversal parse0 engNoTx (Traversal.addVertex vNoId) =
        .ok (engNoTx.submit (parse0 (Traversal.addVertex vNoId)).1
          (parse0 (Traversal.addVertex vNoId)).2 none) :=
  ⟨rfl, rfl⟩

/-- Claim C9, counterexample: with a backend that does not support
transactions and nothing pending, `commit` does not return normally —
it raises NotImplementedError after flushing. -/
theorem commit_never_returns_normally_cex :
    commit bkEmpty false [] [] = ⟨.error Err.notImplementedError, [], [], []⟩ :=
  rfl

/-- Claim C9 as amended: `commit` flushes the pending queue fully (a flush
failure propagates with flush's state); after a successful flush the
queue is empty but `commit` never returns normally: it raises TypeError
when the backend advertises transactions (the session check calls the
bool `self._use_session`; the finalize step `tx()` is never invoked) and
NotImplementedError otherwise. -/
theorem commit_flush_then_raise (backend backend2 : Backend) (ft ft2 : Bool)
    (p p2 : List Elem) (cur cur2 : Cache) (err : Err)
    (hok : (flush backend p cur).res = .ok ())
    (herr : (flush backend2 p2 cur2).res = .error err) :
    commit backend ft p cur =
      ⟨.error (if ft then Err.typeError else Err.notImplementedError), [],
        (flush backend p cur).current, (flush backend p cur).saved⟩
    ∧ commit backend2 ft2 p2 cur2 =
      ⟨.error err, (flush backend2 p2 cur2).pending, (flush backend2 p2 cur2).current,
        (flush backend2 p2 cur2).saved⟩ := by
  constructor
  · have hp := flush_ok_pending backend p cur hok
    cases ft <;> simp [commit, hok, hp]
  · simp [commit, herr]

/-- Witness for the amended C9: an empty queue with a
transaction-advertising backend raises TypeError after the (trivial)
flush; a queue whose element has an unknown discriminator propagates the
flush failure. -/
theorem commit_flush_then_raise_witness :
    commit bkEmpty true [] [] =
      ⟨.error (if true then Err.typeError else Err.notImplementedError), [],
        (flush bkEmpty ([] : List Elem) []).current, (flush bkEmpty ([] : List Elem) []).saved⟩
    ∧ commit bkEmpty false [badElem] [] =
      ⟨.error Err.unknownElementType, (flush bkEmpty [badElem] []).pending,
        (flush bkEmpty [badElem] []).current, (flush bkEmpty [badElem] []).saved⟩ :=
  commit_flush_then_raise bkEmpty bkEmpty true false [] [badElem] [] []
    Err.unknownElementType rfl rfl

end Goblin
